/-
  Verification of the retry/backoff engine and the four endpoint operations
  of the Tieba check-in client (src/apiService.ts).

  The embedding translates the TypeScript source into Lean:
  * an attempt of the wrapped async operation is a value of
    `Except AxiosError T` (a thrown value carries an optional HTTP status,
    modelling `axiosError.response?.status`, and a message);
  * `withRetry` consumes a stream `Nat → Except AxiosError T` giving the
    outcome of each successive invocation of `requestFn`, and returns a
    `RetryResult` recording the number of invocations, the backoff delays
    slept (in order), the terminal `console.error` side channel (structured
    as operation name, attempt count and error message) and the final
    outcome;
  * each endpoint operation is a pure function of the (optional) response
    body it receives per attempt, composed through `withRetry` exactly as in
    the source.
-/
import Mathlib

/-- Model of the thrown error inspected by `withRetry`: `status` is
`axiosError.response?.status` (`none` when no HTTP response is attached,
e.g. network errors, timeouts, or `new Error(...)` thrown by a validation
check), `message` is `axiosError.message`. -/
structure AxiosError where
  status : Option Nat
  message : String
deriving DecidableEq, Repr

/-- `axiosError.response && axiosError.response.status === 429`. -/
def isRateLimited (e : AxiosError) : Bool :=
  e.status = some 429

/-- `axiosError.response && axiosError.response.status >= 400 &&
axiosError.response.status < 500` (the client-error range test of the
terminal condition; in the source it is conjoined with `!isRateLimited`). -/
def isClientError (e : AxiosError) : Bool :=
  match e.status with
  | some s => 400 ≤ s && s < 500
  | none => false

/-- The observable outcome of one `withRetry` run: total invocations of
`requestFn`, the delays slept between attempts (in order), the terminal
`console.error` side channel (operation name, `retries` counter, error
message) and the value returned or error thrown. -/
structure RetryResult (T : Type) where
  attempts : Nat
  sleeps : List Nat
  errorLog : Option (String × Nat × String)
  result : Except AxiosError T
deriving Repr

/-- The `while (true)` loop of `withRetry`.  `k` counts the invocations
already made (all of which failed, or the loop would have returned), so the
`retries` counter after the next failure is `k + 1`; `left` is
`maxRetries - k`, hence `retries > maxRetries` exactly when `left = 0`.
Recursing on `left` keeps the definition structurally recursive. -/
def withRetryLoop {T : Type} (requestFn : Nat → Except AxiosError T)
    (delayMultiplier : Nat) (operationName : String) :
    Nat → Nat → Nat → RetryResult T
  | 0, k, _ =>
    match requestFn k with
    | Except.ok v =>
      { attempts := k + 1, sleeps := [], errorLog := none,
        result := Except.ok v }
    | Except.error e =>
      { attempts := k + 1, sleeps := [],
        errorLog := some (operationName, k + 1, e.message),
        result := Except.error e }
  | left + 1, k, delay =>
    match requestFn k with
    | Except.ok v =>
      { attempts := k + 1, sleeps := [], errorLog := none,
        result := Except.ok v }
    | Except.error e =>
      if !isRateLimited e && isClientError e then
        { attempts := k + 1, sleeps := [],
          errorLog := some (operationName, k + 1, e.message),
          result := Except.error e }
      else
        let newDelay :=
          if isRateLimited e then delay * delayMultiplier * 2
          else delay * delayMultiplier
        let r := withRetryLoop requestFn delayMultiplier operationName
          left (k + 1) newDelay
        { attempts := r.attempts, sleeps := newDelay :: r.sleeps,
          errorLog := r.errorLog, result := r.result }

/-- `withRetry(requestFn, operationName, maxRetries, initialDelay,
delayMultiplier)`: `requestFn n` is the outcome of the `(n+1)`-th
invocation of the wrapped operation. -/
def withRetry {T : Type} (requestFn : Nat → Except AxiosError T)
    (operationName : String) (maxRetries initialDelay delayMultiplier : Nat) :
    RetryResult T :=
  withRetryLoop requestFn delayMultiplier operationName maxRetries 0
    initialDelay

/-- `const MAX_RETRIES = 3`. -/
def MAX_RETRIES : Nat := 3

/-- `const RETRY_DELAY = 3000`. -/
def RETRY_DELAY : Nat := 3000

/-- `const RETRY_MULTIPLIER = 2`. -/
def RETRY_MULTIPLIER : Nat := 2

/-! ## Endpoint operations -/

/-- Modelled from the spec: the Device Identity Helper
(`generateDeviceId` of `./utils`, not under src/) "produces a stable
pseudo-random device identifier attached to successful authentication
results".  The pseudo-random state is abstracted into a seed. -/
def generateDeviceId (seed : Nat) : String :=
  "dev-" ++ toString seed

/-- Modelled from the spec: `toQueryString` of `./utils` (not under src/)
encodes key/value pairs "as a form-encoded body". -/
def toQueryString (data : List (String × String)) : String :=
  String.intercalate "&" (data.map fun p => p.1 ++ "=" ++ p.2)

/-- The nested `data` object of the `/mo/q/sync` response body; `user_id`
is read without a presence check, so it is an `Option`. -/
structure LoginData where
  user_id : Option String
deriving DecidableEq, Repr

/-- The `/mo/q/sync` response body as far as `login` inspects it. -/
structure LoginBody where
  no : Option Int
  error : Option String
  data : Option LoginData
deriving DecidableEq, Repr

/-- `UserInfo` as constructed by `login`. -/
structure UserInfo where
  status : Nat
  bduss : String
  userId : Option String
  isValid : Bool
  deviceId : String
deriving DecidableEq, Repr

/-- One attempt of the closure passed to `withRetry` by `login`, given the
response body of this attempt (`none` when `response.data` is falsy) and
the device id `generateDeviceId()` would produce on this attempt.  The
validation `!response.data || response.data.no !== 0 ||
response.data.error !== 'success'` throws a plain `Error` (no HTTP
response attached, hence `status := none`); on the success path
`response.data.data.user_id` is read with `response.data.data` unguarded,
so an absent `data` field raises a TypeError (also with no response). -/
def loginAttempt (bduss : String) (body : Option LoginBody)
    (deviceId : String) : Except AxiosError UserInfo :=
  match body with
  | none => Except.error ⟨none, "验证BDUSS失败，可能已过期"⟩
  | some b =>
    if b.no ≠ some 0 ∨ b.error ≠ some "success" then
      Except.error ⟨none, "验证BDUSS失败，可能已过期"⟩
    else
      match b.data with
      | none =>
        Except.error
          ⟨none, "Cannot read properties of undefined (reading user_id)"⟩
      | some d =>
        Except.ok
          { status := 200, bduss := bduss, userId := d.user_id,
            isValid := true, deviceId := deviceId }

/-- `login(bduss)`: the attempt closure wrapped in `withRetry` with the
default policy and the label `'验证BDUSS'`.  `bodies n` is the response
body of the `(n+1)`-th request, `seeds n` the device-id seed consumed on
that attempt. -/
def login (bduss : String) (bodies : Nat → Option LoginBody)
    (seeds : Nat → Nat) : RetryResult UserInfo :=
  withRetry (fun k => loginAttempt bduss (bodies k) (generateDeviceId (seeds k)))
    "验证BDUSS" MAX_RETRIES RETRY_DELAY RETRY_MULTIPLIER

/-- Modelled from the spec: a community record "with at least a
name/identifier" (the `TiebaInfo` type lives in the missing
`types/apiService.types` file; `getTiebaList` itself never inspects the
fields). -/
structure TiebaInfo where
  forum_name : String
deriving DecidableEq, Repr

/-- The nested `data` object of the `/mo/q/newmoindex` response body:
`like_forum` may be absent (`response.data.data.like_forum || []`). -/
structure TiebaData where
  like_forum : Option (List TiebaInfo)
deriving DecidableEq, Repr

/-- The `/mo/q/newmoindex` response body as far as `getTiebaList`
inspects it. -/
structure TiebaBody where
  error : Option String
  error_msg : Option String
  data : Option TiebaData
deriving DecidableEq, Repr

/-- One attempt of the closure passed to `withRetry` by `getTiebaList`:
`!response.data || response.data.error !== 'success'` throws an `Error`
whose message appends `response.data?.error_msg || '未知错误'`; otherwise
`response.data.data.like_forum || []` is returned, where `response.data.data`
is unguarded, so an absent `data` field raises a TypeError. -/
def getTiebaListAttempt (body : Option TiebaBody) :
    Except AxiosError (List TiebaInfo) :=
  match body with
  | none => Except.error ⟨none, "获取贴吧列表失败: " ++ "未知错误"⟩
  | some b =>
    if b.error ≠ some "success" then
      Except.error
        ⟨none, "获取贴吧列表失败: " ++ (b.error_msg.getD "未知错误")⟩
    else
      match b.data with
      | none =>
        Except.error
          ⟨none, "Cannot read properties of undefined (reading like_forum)"⟩
      | some d => Except.ok (d.like_forum.getD [])

/-- `getTiebaList(bduss)`: the attempt closure wrapped in `withRetry` with
the default policy and the label `'获取贴吧列表'`. -/
def getTiebaList (bduss : String) (bodies : Nat → Option TiebaBody) :
    RetryResult (List TiebaInfo) :=
  withRetry (fun k => getTiebaListAttempt (bodies k)) "获取贴吧列表"
    MAX_RETRIES RETRY_DELAY RETRY_MULTIPLIER

/-- The `/dc/common/tbs` response body: the check `!response.data.tbs`
fails both for an absent field and for the empty string, so `tbs` is an
`Option String`. -/
structure TbsResult where
  tbs : Option String
deriving DecidableEq, Repr

/-- One attempt of the closure passed to `withRetry` by `getTbs`:
`!response.data || !response.data.tbs` throws `Error('获取tbs失败')`. -/
def getTbsAttempt (body : Option TbsResult) : Except AxiosError String :=
  match body with
  | none => Except.error ⟨none, "获取tbs失败"⟩
  | some b =>
    match b.tbs with
    | none => Except.error ⟨none, "获取tbs失败"⟩
    | some t =>
      if t = "" then Except.error ⟨none, "获取tbs失败"⟩
      else Except.ok t

/-- `getTbs(bduss)`: the attempt closure wrapped in `withRetry` with the
default policy and the label `'获取TBS参数'`. -/
def getTbs (bduss : String) (bodies : Nat → Option TbsResult) :
    RetryResult String :=
  withRetry (fun k => getTbsAttempt (bodies k)) "获取TBS参数"
    MAX_RETRIES RETRY_DELAY RETRY_MULTIPLIER

/-- Modelled from the spec: `SignResult` (declared in the missing
`types/apiService.types` file) is "the raw validated response payload for
one community check-in attempt; opaque to this core". -/
structure SignResult where
  raw : String
deriving DecidableEq, Repr

/-- An outbound HTTP request as assembled by an endpoint operation. -/
structure HttpRequest where
  method : String
  url : String
  headers : List (String × String)
  body : Option String
deriving DecidableEq, Repr

/-- The request `signTieba` posts: URL, headers and the form body
`toQueryString({tbs, kw: tiebaName, ie: 'utf-8'})`.  The `index`
parameter of `signTieba` is accepted but never used in the request. -/
def signTiebaRequest (bduss tiebaName tbs : String) (index : Nat) :
    HttpRequest :=
  { method := "POST"
    url := "https://c.tieba.baidu.com/c/c/forum/sign"
    headers :=
      [("Cookie", "BDUSS=" ++ bduss),
       ("Accept", "application/json, text/javascript, */*; q=0.01"),
       ("Accept-Encoding", "gzip,deflate,br"),
       ("Accept-Language", "zh-CN,zh;q=0.9,en;q=0.8,en-GB;q=0.7,en-US;q=0.6"),
       ("Content-Type", "application/x-www-form-urlencoded; charset=UTF-8"),
       ("Connection", "keep-alive"),
       ("Host", "tieba.baidu.com"),
       ("Referer", "https://tieba.baidu.com/"),
       ("x-requested-with", "XMLHttpRequest"),
       ("User-Agent", "Mozilla/5.0 (Windows NT 10.0; Win64; x64) AppleWebKit/537.36 (KHTML, like Gecko) Chrome/84.0.4147.135 Safari/537.36 Edg/84.0.522.63")]
    body := some (toQueryString
      [("tbs", tbs), ("kw", tiebaName), ("ie", "utf-8")]) }

/-- One attempt of the closure passed to `withRetry` by `signTieba`:
`!response.data` throws `Error('签到响应数据为空')`, otherwise the raw
body is returned unchanged. -/
def signTiebaAttempt (body : Option SignResult) :
    Except AxiosError SignResult :=
  match body with
  | none => Except.error ⟨none, "签到响应数据为空"⟩
  | some r => Except.ok r

/-- `signTieba(bduss, tiebaName, tbs, index)`: the attempt closure wrapped
in `withRetry` with the default policy and the label `'签到操作'`.  The
`index` parameter is accepted but unused by the function body. -/
def signTieba (bduss tiebaName tbs : String) (index : Nat)
    (bodies : Nat → Option SignResult) : RetryResult SignResult :=
  withRetry (fun k => signTiebaAttempt (bodies k)) "签到操作"
    MAX_RETRIES RETRY_DELAY RETRY_MULTIPLIER

/-! ## Lemmas about the retry loop -/

/-- If every invocation fails and no failure is classified non-retryable
(each error is rate-limited or outside the 4xx range), the loop runs until
the `retries` counter exceeds `maxRetries`: starting with `k` prior
attempts and `left = maxRetries - k` it makes `left + 1` further
invocations and propagates the error of the last one, logging the label,
the final `retries` value and that error's message. -/
theorem withRetryLoop_allFail {T : Type} (ops : Nat → Except AxiosError T)
    (errs : Nat → AxiosError) (mult : Nat) (label : String)
    (hops : ∀ j, ops j = Except.error (errs j))
    (hret : ∀ j, isRateLimited (errs j) = true ∨ isClientError (errs j) = false) :
    ∀ left k delay,
      (withRetryLoop ops mult label left k delay).attempts = k + left + 1 ∧
      (withRetryLoop ops mult label left k delay).result
        = Except.error (errs (k + left)) ∧
      (withRetryLoop ops mult label left k delay).errorLog
        = some (label, k + left + 1, (errs (k + left)).message) := by
  intro left
  induction left with
  | zero =>
    intro k delay
    simp [withRetryLoop, hops k]
  | succ n ih =>
    intro k delay
    have hcond : (!isRateLimited (errs k) && isClientError (errs k)) = false := by
      rcases hret k with h | h <;> simp [h]
    obtain ⟨h1, h2, h3⟩ := ih (k + 1)
      (if isRateLimited (errs k) then delay * mult * 2 else delay * mult)
    have hk : k + 1 + n = k + (n + 1) := by omega
    rw [hk] at h1 h2 h3
    refine ⟨?_, ?_, ?_⟩ <;>
      simp [withRetryLoop, hops k, hcond, h1, h2, h3]

/-- Under the hypotheses of `withRetryLoop_allFail`, when every failure has
the same rate-limited classification `b`, the delays slept form the
geometric sequence obtained by repeatedly multiplying the current delay by
`mult * 2` (rate-limited) or by `mult` (otherwise). -/
theorem withRetryLoop_allFail_sleeps {T : Type} (ops : Nat → Except AxiosError T)
    (errs : Nat → AxiosError) (mult : Nat) (label : String) (b : Bool)
    (hops : ∀ j, ops j = Except.error (errs j))
    (hRL : ∀ j, isRateLimited (errs j) = b)
    (hret : ∀ j, isRateLimited (errs j) = true ∨ isClientError (errs j) = false) :
    ∀ left k delay,
      (withRetryLoop ops mult label left k delay).sleeps
        = (List.range left).map
            (fun i => delay * (if b then mult * 2 else mult) ^ (i + 1)) := by
  intro left
  induction left with
  | zero =>
    intro k delay
    simp [withRetryLoop, hops k]
  | succ n ih =>
    intro k delay
    have hcond : (!isRateLimited (errs k) && isClientError (errs k)) = false := by
      rcases hret k with h | h <;> simp [h]
    have hstep :
        (if isRateLimited (errs k) then delay * mult * 2 else delay * mult)
          = delay * (if b then mult * 2 else mult) := by
      rw [hRL k]
      cases b <;> simp [Nat.mul_assoc]
    rw [List.range_succ_eq_map, List.map_cons, List.map_map]
    simp only [withRetryLoop, hops k, hcond]
    simp only [hstep, ih (k + 1)]
    refine List.cons_eq_cons.mpr ⟨by rw [pow_one], ?_⟩
    refine List.map_congr_left fun i _ => ?_
    cases b <;> simp [Function.comp, pow_succ] <;> ring

/-- Whenever the loop terminates with an error, that error is exactly the
value thrown by the last invocation (`throw error` rethrows the original),
and the `console.error` side channel received the label, the final
`retries` counter (= total attempts) and that error's message. -/
theorem withRetryLoop_error_inv {T : Type} (ops : Nat → Except AxiosError T)
    (mult : Nat) (label : String) :
    ∀ left k delay e,
      (withRetryLoop ops mult label left k delay).result = Except.error e →
      ops ((withRetryLoop ops mult label left k delay).attempts - 1)
        = Except.error e ∧
      (withRetryLoop ops mult label left k delay).errorLog
        = some (label, (withRetryLoop ops mult label left k delay).attempts,
            e.message) := by
  intro left
  induction left with
  | zero =>
    intro k delay e he
    cases hop : ops k with
    | ok v => simp [withRetryLoop, hop] at he
    | error e₁ =>
      simp [withRetryLoop, hop] at he ⊢
      subst he
      simp
  | succ n ih =>
    intro k delay e he
    cases hop : ops k with
    | ok v => simp [withRetryLoop, hop] at he
    | error e₁ =>
      by_cases hcond : (!isRateLimited e₁ && isClientError e₁) = true
      · simp [withRetryLoop, hop, hcond] at he ⊢
        subst he
        simp
      · rw [Bool.not_eq_true] at hcond
        simp only [withRetryLoop, hop, hcond] at he ⊢
        simp only [Bool.false_eq_true, if_false] at he ⊢
        exact ih (k + 1) _ e he

/-- Every run of the loop makes at least one invocation beyond the `k`
already counted. -/
theorem withRetryLoop_attempts_ge {T : Type} (ops : Nat → Except AxiosError T)
    (mult : Nat) (label : String) :
    ∀ left k delay, k + 1 ≤ (withRetryLoop ops mult label left k delay).attempts := by
  intro left
  induction left with
  | zero =>
    intro k delay
    cases hop : ops k <;> simp [withRetryLoop, hop]
  | succ n ih =>
    intro k delay
    cases hop : ops k with
    | ok v => simp [withRetryLoop, hop]
    | error e =>
      by_cases hcond : (!isRateLimited e && isClientError e) = true
      · simp [withRetryLoop, hop, hcond]
      · rw [Bool.not_eq_true] at hcond
        simp only [withRetryLoop, hop, hcond, Bool.false_eq_true, if_false]
        have := ih (k + 1)
          (if isRateLimited e then delay * mult * 2 else delay * mult)
        omega

/-- The loop only ever consults `requestFn` at indices ≥ the attempts
already made: two operation streams that agree from `k` on produce
identical runs. -/
theorem withRetryLoop_congr {T : Type} (ops ops' : Nat → Except AxiosError T)
    (mult : Nat) (label : String) :
    ∀ left k delay, (∀ j, k ≤ j → ops j = ops' j) →
      withRetryLoop ops mult label left k delay
        = withRetryLoop ops' mult label left k delay := by
  intro left
  induction left with
  | zero =>
    intro k delay hagree
    simp [withRetryLoop, hagree k le_rfl]
  | succ n ih =>
    intro k delay hagree
    have hk : ops k = ops' k := hagree k le_rfl
    cases hop : ops' k with
    | ok v => simp [withRetryLoop, hk, hop]
    | error e =>
      simp only [withRetryLoop, hk, hop]
      have htail : ∀ j, k + 1 ≤ j → ops j = ops' j := fun j hj =>
        hagree j (by omega)
      rw [ih (k + 1) (if isRateLimited e then delay * mult * 2 else delay * mult) htail]

/-- A failure value "carries" a string when that string occurs in its
message — the message is the only textual content an `AxiosError`
propagates to the caller. -/
def errorMentions (e : AxiosError) (s : String) : Prop :=
  ∃ pre post : String, e.message = pre ++ s ++ post

/-! ## The claims -/

/-- C1: for every `maxRetries = N`, if the wrapped operation fails on
every invocation with a non-rate-limited failure that is not a 4xx client
error (e.g. a 5xx), then `withRetry` invokes the operation exactly `N + 1`
times and then propagates the failure (the error of the final
invocation). -/
theorem c1_exhausts_retries_then_propagates {T : Type} (N D M : Nat)
    (label : String) (ops : Nat → Except AxiosError T)
    (errs : Nat → AxiosError)
    (hops : ∀ k, ops k = Except.error (errs k))
    (hRL : ∀ k, isRateLimited (errs k) = false)
    (hCE : ∀ k, isClientError (errs k) = false) :
    (withRetry ops label N D M).attempts = N + 1 ∧
    (withRetry ops label N D M).result = Except.error (errs N) := by
  have h := withRetryLoop_allFail ops errs M label hops
    (fun j => Or.inr (hCE j)) N 0 D
  exact ⟨by simpa [withRetry] using h.1, by simpa [withRetry] using h.2.1⟩

/-- Witness for C1 at `N = 2` with a constant 500 failure. -/
theorem c1_witness :
    (withRetry (fun _ => (Except.error ⟨some 500, "boom"⟩ : Except AxiosError Nat))
        "op" 2 3000 2).attempts = 2 + 1 ∧
    (withRetry (fun _ => (Except.error ⟨some 500, "boom"⟩ : Except AxiosError Nat))
        "op" 2 3000 2).result = Except.error ⟨some 500, "boom"⟩ :=
  c1_exhausts_retries_then_propagates 2 3000 2 "op" _
    (fun _ => ⟨some 500, "boom"⟩) (fun _ => rfl) (fun _ => rfl) (fun _ => rfl)

/-- C2: the delay slept after each retryable failure is the current delay
escalated first (`delay * multiplier * 2` after a 429, `delay *
multiplier` otherwise): a run of consecutive rate-limited failures sleeps
`D*2M, D*2M*2M, …` and a run of consecutive generic retryable failures
sleeps `D*M, D*M*M, …`. -/
theorem c2_backoff_escalation {T : Type} (N D M : Nat) (label : String) :
    (∀ (ops : Nat → Except AxiosError T) (errs : Nat → AxiosError),
      (∀ k, ops k = Except.error (errs k)) →
      (∀ k, isRateLimited (errs k) = true) →
      (withRetry ops label N D M).sleeps
        = (List.range N).map fun i => D * (M * 2) ^ (i + 1)) ∧
    (∀ (ops : Nat → Except AxiosError T) (errs : Nat → AxiosError),
      (∀ k, ops k = Except.error (errs k)) →
      (∀ k, isRateLimited (errs k) = false) →
      (∀ k, isClientError (errs k) = false) →
      (withRetry ops label N D M).sleeps
        = (List.range N).map fun i => D * M ^ (i + 1)) := by
  constructor
  · intro ops errs hops hRL
    have h := withRetryLoop_allFail_sleeps ops errs M label true hops hRL
      (fun j => Or.inl (hRL j)) N 0 D
    simpa [withRetry] using h
  · intro ops errs hops hRL hCE
    have h := withRetryLoop_allFail_sleeps ops errs M label false hops hRL
      (fun j => Or.inr (hCE j)) N 0 D
    simpa [withRetry] using h

/-- Witness for C2 at `N = 3`, `D = 3000`, `M = 2`: a constant-429 run
sleeps `3000·4, 3000·4², 3000·4³` and a constant-network-error run sleeps
`3000·2, 3000·2², 3000·2³`. -/
theorem c2_witness :
    (withRetry (fun _ => (Except.error ⟨some 429, "rl"⟩ : Except AxiosError Nat))
        "op" 3 3000 2).sleeps = (List.range 3).map (fun i => 3000 * (2 * 2) ^ (i + 1)) ∧
    (withRetry (fun _ => (Except.error ⟨none, "net"⟩ : Except AxiosError Nat))
        "op" 3 3000 2).sleeps = (List.range 3).map (fun i => 3000 * 2 ^ (i + 1)) :=
  ⟨(c2_backoff_escalation 3 3000 2 "op").1 _ (fun _ => ⟨some 429, "rl"⟩)
      (fun _ => rfl) (fun _ => rfl),
   (c2_backoff_escalation 3 3000 2 "op").2 _ (fun _ => ⟨none, "net"⟩)
      (fun _ => rfl) (fun _ => rfl) (fun _ => rfl)⟩

/-- C3: if the first invocation fails with an HTTP status in `[400, 500)`
other than 429, `withRetry` propagates that failure after exactly one
invocation, with no retry and no sleep, for every `maxRetries`. -/
theorem c3_client_error_fails_fast {T : Type} (N D M : Nat) (label : String)
    (ops : Nat → Except AxiosError T) (e : AxiosError) (s : Nat)
    (hop : ops 0 = Except.error e) (hs : e.status = some s)
    (h4 : 400 ≤ s) (h5 : s < 500) (h429 : s ≠ 429) :
    (withRetry ops label N D M).attempts = 1 ∧
    (withRetry ops label N D M).sleeps = [] ∧
    (withRetry ops label N D M).result = Except.error e := by
  have hRL : isRateLimited e = false := by
    simp [isRateLimited, hs, h429]
  have hCE : isClientError e = true := by
    simp only [isClientError, hs]
    simp [h4, h5]
  cases N with
  | zero => refine ⟨?_, ?_, ?_⟩ <;> simp [withRetry, withRetryLoop, hop]
  | succ n => refine ⟨?_, ?_, ?_⟩ <;>
      simp [withRetry, withRetryLoop, hop, hRL, hCE]

/-- Witness for C3: a 404 on the first attempt with `maxRetries = 3`. -/
theorem c3_witness :
    (withRetry (fun _ => (Except.error ⟨some 404, "nf"⟩ : Except AxiosError Nat))
        "op" 3 3000 2).attempts = 1 ∧
    (withRetry (fun _ => (Except.error ⟨some 404, "nf"⟩ : Except AxiosError Nat))
        "op" 3 3000 2).sleeps = [] ∧
    (withRetry (fun _ => (Except.error ⟨some 404, "nf"⟩ : Except AxiosError Nat))
        "op" 3 3000 2).result = Except.error ⟨some 404, "nf"⟩ :=
  c3_client_error_fails_fast 3 3000 2 "op" _ ⟨some 404, "nf"⟩ 404 rfl rfl
    (by decide) (by decide) (by decide)

/-- C4 counterexample: with the real `login` label `'验证BDUSS'` and a
wrapped operation that always fails with message `"boom"`, the terminal
failure surfaced by `withRetry` is the original error unchanged — its
message does not contain the operation label (the label and attempt count
appear only in the `console.error` side channel). -/
theorem c4_counterexample :
    (withRetry (fun _ => (Except.error ⟨some 500, "boom"⟩ : Except AxiosError Nat))
        "验证BDUSS" 0 3000 2).result = Except.error ⟨some 500, "boom"⟩ ∧
    ¬ errorMentions ⟨some 500, "boom"⟩ "验证BDUSS" := by
  refine ⟨rfl, ?_⟩
  rintro ⟨pre, post, h⟩
  replace h : ("boom" : String) = pre ++ "验证BDUSS" ++ post := h
  have hlen := congrArg String.length h
  rw [String.length_append, String.length_append] at hlen
  have h1 : ("boom" : String).length = 4 := rfl
  have h2 : ("验证BDUSS" : String).length = 7 := rfl
  omega

/-- C4 amended: whenever `withRetry` terminally propagates a failure, the
failure value surfaced to the caller is the error thrown by the final
invocation, unchanged; the operation label and the attempt count are
carried only by the `console.error` side channel, together with that
error's message. -/
theorem c4_terminal_error_unchanged_label_logged {T : Type}
    (ops : Nat → Except AxiosError T) (label : String) (N D M : Nat)
    (e : AxiosError)
    (he : (withRetry ops label N D M).result = Except.error e) :
    ops ((withRetry ops label N D M).attempts - 1) = Except.error e ∧
    (withRetry ops label N D M).errorLog
      = some (label, (withRetry ops label N D M).attempts, e.message) :=
  withRetryLoop_error_inv ops M label N 0 D e he

/-- Witness for the amended C4: a constant network failure with
`maxRetries = 1`. -/
theorem c4_witness :
    (fun _ : Nat => (Except.error ⟨none, "x"⟩ : Except AxiosError Nat))
        ((withRetry (fun _ => (Except.error ⟨none, "x"⟩ : Except AxiosError Nat))
          "L" 1 3000 2).attempts - 1) = Except.error ⟨none, "x"⟩ ∧
    (withRetry (fun _ => (Except.error ⟨none, "x"⟩ : Except AxiosError Nat))
        "L" 1 3000 2).errorLog
      = some ("L",
          (withRetry (fun _ => (Except.error ⟨none, "x"⟩ : Except AxiosError Nat))
            "L" 1 3000 2).attempts, "x") :=
  c4_terminal_error_unchanged_label_logged
    (fun _ => (Except.error ⟨none, "x"⟩ : Except AxiosError Nat))
    "L" 1 3000 2 ⟨none, "x"⟩ rfl

/-- C5: a failure with no HTTP response status attached is classified as a
generic retryable failure: the next delay is escalated by the plain
multiplier (`D * M`), a second invocation happens rather than failing
fast, and the whole run is identical to one whose first failure is a 5xx
transient failure. -/
theorem c5_no_status_is_generic_retryable {T : Type}
    (ops ops' : Nat → Except AxiosError T) (label : String)
    (N D M : Nat) (e e' : AxiosError)
    (hop : ops 0 = Except.error e) (hs : e.status = none)
    (hop' : ops' 0 = Except.error e') (hs' : e'.status = some 500)
    (hagree : ∀ j, 1 ≤ j → ops j = ops' j) (hN : 1 ≤ N) :
    (withRetry ops label N D M).sleeps.head? = some (D * M) ∧
    2 ≤ (withRetry ops label N D M).attempts ∧
    withRetry ops label N D M = withRetry ops' label N D M := by
  obtain ⟨n, rfl⟩ : ∃ n, N = n + 1 := ⟨N - 1, by omega⟩
  have hRL : isRateLimited e = false := by simp [isRateLimited, hs]
  have hCE : isClientError e = false := by simp [isClientError, hs]
  have hRL' : isRateLimited e' = false := by simp [isRateLimited, hs']
  have hCE' : isClientError e' = false := by simp [isClientError, hs']
  have hrec := withRetryLoop_congr ops ops' M label n 1 (D * M) hagree
  refine ⟨?_, ?_, ?_⟩
  · simp [withRetry, withRetryLoop, hop, hRL, hCE]
  · have hge := withRetryLoop_attempts_ge ops M label n 1 (D * M)
    simp only [withRetry, withRetryLoop, hop, hRL, hCE]
    simp only [Bool.not_false, Bool.false_and, Bool.and_false,
      Bool.false_eq_true, if_false, Nat.zero_add]
    omega
  · simp [withRetry, withRetryLoop, hop, hop', hRL, hCE, hRL', hCE', hrec]

/-- Witness for C5: a first network failure versus a first 500 failure,
both followed by constant network failures, with `maxRetries = 3`. -/
theorem c5_witness :
    (withRetry (fun _ => (Except.error ⟨none, "net"⟩ : Except AxiosError Nat))
        "op" 3 3000 2).sleeps.head? = some (3000 * 2) ∧
    2 ≤ (withRetry (fun _ => (Except.error ⟨none, "net"⟩ : Except AxiosError Nat))
        "op" 3 3000 2).attempts ∧
    withRetry (fun _ => (Except.error ⟨none, "net"⟩ : Except AxiosError Nat))
        "op" 3 3000 2
      = withRetry (fun k => match k with
          | 0 => (Except.error ⟨some 500, "srv"⟩ : Except AxiosError Nat)
          | _ + 1 => Except.error ⟨none, "net"⟩) "op" 3 3000 2 :=
  c5_no_status_is_generic_retryable _ _ "op" 3 3000 2 ⟨none, "net"⟩
    ⟨some 500, "srv"⟩ rfl rfl rfl rfl
    (fun j hj => by cases j with | zero => omega | succ n => rfl)
    (by decide)

/-- C6: for every credential, `login` applied to a response body
`{no: 0, error: "success", data: {user_id: "U1"}}` returns a `UserInfo`
with userId `"U1"`, `isValid` true and a non-empty deviceId on the first
attempt; applied to `{no: 1, error: "fail"}` it fails with the
invalid-or-expired-credential condition after `MAX_RETRIES + 1` attempts
(the configured policy's maximum). -/
theorem c6_login_validation (bduss : String) (seeds : Nat → Nat) :
    (login bduss (fun _ => some ⟨some 0, some "success", some ⟨some "U1"⟩⟩)
        seeds
      = { attempts := 1, sleeps := [], errorLog := none,
          result := Except.ok
            ⟨200, bduss, some "U1", true, generateDeviceId (seeds 0)⟩ } ∧
      generateDeviceId (seeds 0) ≠ "") ∧
    ((login bduss (fun _ => some ⟨some 1, some "fail", none⟩) seeds).result
      = Except.error ⟨none, "验证BDUSS失败，可能已过期"⟩ ∧
     (login bduss (fun _ => some ⟨some 1, some "fail", none⟩) seeds).attempts
      = MAX_RETRIES + 1) := by
  refine ⟨⟨rfl, ?_⟩, ?_, ?_⟩
  · intro hempty
    have hlen := congrArg String.length hempty
    rw [generateDeviceId, String.length_append] at hlen
    have h4 : ("dev-" : String).length = 4 := rfl
    have h0 : ("" : String).length = 0 := rfl
    omega
  · have h := withRetryLoop_allFail
      (fun k => loginAttempt bduss (some ⟨some 1, some "fail", none⟩)
        (generateDeviceId (seeds k)))
      (fun _ => ⟨none, "验证BDUSS失败，可能已过期"⟩)
      RETRY_MULTIPLIER "验证BDUSS" (fun _ => rfl) (fun _ => Or.inr rfl)
      MAX_RETRIES 0 RETRY_DELAY
    exact h.2.1
  · have h := withRetryLoop_allFail
      (fun k => loginAttempt bduss (some ⟨some 1, some "fail", none⟩)
        (generateDeviceId (seeds k)))
      (fun _ => ⟨none, "验证BDUSS失败，可能已过期"⟩)
      RETRY_MULTIPLIER "验证BDUSS" (fun _ => rfl) (fun _ => Or.inr rfl)
      MAX_RETRIES 0 RETRY_DELAY
    simpa using h.1

/-- C7: a `getTiebaList` response whose body carries the success marker
but whose nested `data` object has no `like_forum` field yields the empty
list on the first attempt, with no error, for every credential and
whatever `error_msg` carries. -/
theorem c7_missing_like_forum_is_empty_list (bduss : String)
    (em : Option String) :
    getTiebaList bduss
        (fun _ => some ⟨some "success", em, some ⟨none⟩⟩)
      = { attempts := 1, sleeps := [], errorLog := none,
          result := Except.ok [] } :=
  rfl

/-- C8: `getTbs` fails (with the `'获取tbs失败'` error) exactly when the
response body is absent, the `tbs` field is missing, or the `tbs` field is
the empty string; for a non-empty `tbs` it returns exactly that string on
the first attempt. -/
theorem c8_getTbs_token_validation (bduss : String) (b : Option TbsResult) :
    ((getTbs bduss (fun _ => b)).result
        = Except.error ⟨none, "获取tbs失败"⟩
      ↔ (b = none ∨ b = some { tbs := none } ∨ b = some { tbs := some "" })) ∧
    (∀ t : String, t ≠ "" → b = some { tbs := some t } →
      (getTbs bduss (fun _ => b)).result = Except.ok t ∧
      (getTbs bduss (fun _ => b)).attempts = 1) := by
  rcases b with _ | ⟨_ | t⟩
  · exact ⟨iff_of_true rfl (Or.inl rfl), fun t ht hb => by simp at hb⟩
  · exact ⟨iff_of_true rfl (Or.inr (Or.inl rfl)),
      fun t ht hb => by simp at hb⟩
  · by_cases ht : t = ""
    · subst ht
      refine ⟨iff_of_true rfl (Or.inr (Or.inr rfl)), fun t' ht' hb => ?_⟩
      simp only [Option.some.injEq, TbsResult.mk.injEq] at hb
      exact absurd hb.symm ht'
    · have hok : (getTbs bduss (fun _ => some ⟨some t⟩)).result
          = Except.ok t := by
        simp [getTbs, withRetry, withRetryLoop, getTbsAttempt,
          MAX_RETRIES, RETRY_DELAY, RETRY_MULTIPLIER, ht]
      have hatt : (getTbs bduss (fun _ => some ⟨some t⟩)).attempts = 1 := by
        simp [getTbs, withRetry, withRetryLoop, getTbsAttempt,
          MAX_RETRIES, RETRY_DELAY, RETRY_MULTIPLIER, ht]
      refine ⟨iff_of_false (by simp [hok]) (by simp [ht]), ?_⟩
      intro t' ht' hb
      simp only [Option.some.injEq, TbsResult.mk.injEq] at hb
      subst hb
      exact ⟨hok, hatt⟩

/-- Witness for C8 at the body `{tbs: "abc123"}`. -/
theorem c8_witness :
    (getTbs "B" (fun _ => some { tbs := some "abc123" })).result
      = Except.ok "abc123" ∧
    (getTbs "B" (fun _ => some { tbs := some "abc123" })).attempts = 1 :=
  (c8_getTbs_token_validation "B" (some { tbs := some "abc123" })).2
    "abc123" (by decide) rfl

/-- C9: `signTieba` returns any non-null response body unchanged on the
first attempt and fails with the empty-response condition on a null body;
the outbound request and indeed the whole run are identical for any two
values of the `index` argument. -/
theorem c9_signTieba_passthrough_index_unused
    (bduss tiebaName tbs : String) (i j : Nat) (r : SignResult)
    (bodies : Nat → Option SignResult) :
    signTiebaRequest bduss tiebaName tbs i
      = signTiebaRequest bduss tiebaName tbs j ∧
    signTieba bduss tiebaName tbs i bodies
      = signTieba bduss tiebaName tbs j bodies ∧
    (signTieba bduss tiebaName tbs i (fun _ => some r)).result
      = Except.ok r ∧
    (signTieba bduss tiebaName tbs i (fun _ => some r)).attempts = 1 ∧
    (signTieba bduss tiebaName tbs i (fun _ => none)).result
      = Except.error ⟨none, "签到响应数据为空"⟩ :=
  ⟨rfl, rfl, rfl, rfl, rfl⟩

/-- C10: a `getTiebaList` response with the success marker but no nested
`data` object at all does not yield an empty list: the unguarded
`data.like_forum` access raises a failure with no HTTP status, which the
retry engine treats as retryable — the run makes `MAX_RETRIES + 1`
attempts with plain-multiplier backoff and then propagates that
failure. -/
theorem c10_missing_data_raises_retryable (bduss : String)
    (em : Option String) :
    (getTiebaList bduss (fun _ => some ⟨some "success", em, none⟩)).result
      = Except.error
          ⟨none, "Cannot read properties of undefined (reading like_forum)"⟩ ∧
    (getTiebaList bduss (fun _ => some ⟨some "success", em, none⟩)).attempts
      = MAX_RETRIES + 1 ∧
    (getTiebaList bduss (fun _ => some ⟨some "success", em, none⟩)).sleeps
      = [6000, 12000, 24000] :=
  ⟨rfl, rfl, rfl⟩
